import Mathlib

/-!
Verification development for the Notch network-device access proxy
(agent-side session, credential, LRU-cache, transport and registry
subsystems, plus the client-side request object).

Each definition is a shallow embedding of the corresponding Python
definition; file and line references are given next to each one.
-/

set_option maxHeartbeats 1000000

namespace Notch

/-! ## Errors (notch/agent/errors.py)

Each ApiError subclass carries three class-level flags
(`dampen_reconnect`, `disconnect_on_error`, `retry`); instances may
override them after construction (e.g. `exc.retry = True` in trans.py).
An ApiError value here is the class name together with the current
flag values and the message string. -/

inductive ErrName
  | connectError
  | disconnectError
  | invalidDeviceError
  | invalidModeError
  | invalidRequestError
  | noAddressesError
  | noSuchVendorError
  | noSessionCreatedError
  | authenticationError
  | commandError
  | eofError
  | noMatchingCredentialError
  | downloadError
  | uploadError
  | noSuchDeviceError
  | enableError
  deriving DecidableEq, Repr

structure ApiErr where
  name : ErrName
  msg : String
  dampenReconnect : Bool
  disconnectOnError : Bool
  retry : Bool
  deriving DecidableEq, Repr

/-- Construct an ApiError with the class-level flag defaults of
errors.py: `dampen_reconnect` is true only for ConnectError,
`disconnect_on_error` is true only for CommandError, and `retry`
is true only for EOFError. -/
def mkApiErr (n : ErrName) (msg : String) : ApiErr :=
  { name := n
    msg := msg
    dampenReconnect := n = ErrName.connectError
    disconnectOnError := n = ErrName.commandError
    retry := n = ErrName.eofError }

/-- The `error_dictionary` table of errors.py: JSON-RPC error code for
each ApiError class name. -/
def errorCode : ErrName → Option Nat
  | ErrName.connectError => some 1
  | ErrName.disconnectError => some 2
  | ErrName.invalidDeviceError => some 3
  | ErrName.invalidModeError => some 4
  | ErrName.invalidRequestError => some 5
  | ErrName.noAddressesError => some 6
  | ErrName.noSuchVendorError => some 7
  | ErrName.noSessionCreatedError => some 8
  | ErrName.authenticationError => some 9
  | ErrName.commandError => some 10
  | ErrName.eofError => some 11
  | ErrName.noMatchingCredentialError => some 12
  | ErrName.downloadError => some 13
  | ErrName.uploadError => some 14
  | ErrName.noSuchDeviceError => some 15
  | ErrName.enableError => some 16

/-! ## Regular expressions

Credential patterns are compiled with `re.compile(regexp, re.I)` after
`^` and `$` anchors are added (credential.py lines 63-70), so a
credential pattern matches a hostname exactly when the whole hostname
matches the pattern, case-insensitively.  The compiled pattern is
modelled as a regular-expression AST; matching is whole-string
Brzozowski-derivative matching with case-folded character comparison
(the model of `re.I`). -/

inductive Regex
  | emptyset
  | eps
  | char (c : Char)
  | alt (r s : Regex)
  | cat (r s : Regex)
  | star (r : Regex)
  deriving DecidableEq, Repr

namespace Regex

def nullable : Regex → Bool
  | emptyset => false
  | eps => true
  | char _ => false
  | alt r s => nullable r || nullable s
  | cat r s => nullable r && nullable s
  | star _ => true

/-- Brzozowski derivative; the character comparison is case-folded,
modelling `re.I`. -/
def deriv : Regex → Char → Regex
  | emptyset, _ => emptyset
  | eps, _ => emptyset
  | char c, a => if c.toLower = a.toLower then eps else emptyset
  | alt r s, a => alt (deriv r a) (deriv s a)
  | cat r s, a =>
      if nullable r then alt (cat (deriv r a) s) (deriv s a)
      else cat (deriv r a) s
  | star r, a => cat (deriv r a) (star r)

/-- Whole-string (anchored) matching. -/
def matchList : Regex → List Char → Bool
  | r, [] => nullable r
  | r, c :: cs => matchList (deriv r c) cs

end Regex

/-! ## Credential (notch/agent/credential.py) -/

/-- Anchoring performed by `Credential.__init__` (lines 65-68): prepend
a caret unless present, append a dollar unless present. -/
def anchorPattern (p : String) : String :=
  let d1 : List Char :=
    match p.data with
    | '^' :: rest => '^' :: rest
    | other => '^' :: other
  let d2 : List Char :=
    match d1.getLast? with
    | some '$' => d1
    | _ => d1 ++ ['$']
  { data := d2 }

/-- A Credential as stored after `__init__`.  `regexpString` is the
anchored pattern string (`_regexp_string`); `regexp` stands for the
compiled, case-insensitive pattern (the compilation of the string form
is not itself modelled).  String-or-None fields are Options. -/
structure Credential where
  regexpString : String
  regexp : Regex
  username : Option String
  password : Option String
  enablePassword : Option String
  sshPrivateKey : Option String
  sshPrivateKeyFilename : Option String
  autoEnable : Bool
  connectMethod : Option String
  deriving DecidableEq, Repr

namespace Credential

/-- `Credential.__init__` (lines 55-77): anchor the pattern string and
record the remaining fields.  `ast` is the compiled form of the
anchored pattern string. -/
def make (pattern : String) (ast : Regex) (username password enablePassword
    sshPrivateKey sshPrivateKeyFilename : Option String) (autoEnable : Bool)
    (connectMethod : Option String) : Credential :=
  { regexpString := anchorPattern pattern
    regexp := ast
    username := username
    password := password
    enablePassword := enablePassword
    sshPrivateKey := sshPrivateKey
    sshPrivateKeyFilename := sshPrivateKeyFilename
    autoEnable := autoEnable
    connectMethod := connectMethod }

/-- `Credential.__eq__` (lines 81-88): structural comparison of the
anchored pattern string, username, password, enable password, SSH
private key data and SSH private key filename.  (Note: the source
does not compare `auto_enable` or `connect_method`.) -/
def pyEq (a b : Credential) : Bool :=
  a.regexpString = b.regexpString &&
  a.username = b.username &&
  a.password = b.password &&
  a.enablePassword = b.enablePassword &&
  a.sshPrivateKey = b.sshPrivateKey &&
  a.sshPrivateKeyFilename = b.sshPrivateKeyFilename

/-- `Credential.matches` (lines 127-143): an empty or None hostname
never matches; otherwise test the compiled anchored case-insensitive
pattern against the hostname. -/
def matchesHost (c : Credential) (hostname : Option String) : Bool :=
  match hostname with
  | none => false
  | some h => if h = "" then false else c.regexp.matchList h.data

end Credential

/-- Errors raised by the credentials store. -/
inductive CredErr
  | noMatchingCredentialError (msg : String)
  deriving DecidableEq, Repr

/-- `Credentials.get_credential` (credential.py lines 181-201): an
empty or None hostname raises NoMatchingCredentialError; otherwise the
first credential in list order whose pattern matches is returned, and
if none matches NoMatchingCredentialError is raised. -/
def getCredential (credentials : List Credential) (hostname : Option String) :
    Except CredErr Credential :=
  match hostname with
  | none => Except.error (CredErr.noMatchingCredentialError "No credentials for host None")
  | some h =>
      if h = "" then
        Except.error (CredErr.noMatchingCredentialError "No credentials for host")
      else
        match credentials.find? (fun c => c.matchesHost (some h)) with
        | some c => Except.ok c
        | none =>
            Except.error (CredErr.noMatchingCredentialError "No credentials for host")

/-! ## LRU cache (notch/agent/lru.py)

`LruDict` keeps a Python dict `data` and a `heapq` min-heap of
`HeapItem(time, key)` records ordered by insertion time.  The dict is
modelled as an association list with pairwise-distinct keys; the heap
is modelled as a list from which `heappop`/`heapreplace` extract an
element of minimal time (`HeapItem.__lt__` compares times only).
`time.time()` values are supplied as an explicit `clock` argument.
The `maximum_age`/eventlet timer path (real time) is not modelled.
An `expire_callback` is modelled as a function to `Bool`: a `false`
result stands for the callback raising `DontExpireError`, upon which
`_expire_item` returns without deleting the entry. -/

structure HeapItem (K : Type) where
  time : Nat
  key : K
  deriving DecidableEq, Repr

/-- Extract an element of minimal `time` from the heap, returning it
and the remaining elements (the model of `heapq.heappop`, which with
`HeapItem.__lt__` comparing times returns an item of minimal time).
Returns `none` on an empty heap (`IndexError`). -/
def heapPopMin {K : Type} : List (HeapItem K) → Option (HeapItem K × List (HeapItem K))
  | [] => none
  | x :: xs =>
      match heapPopMin xs with
      | none => some (x, [])
      | some (m, rest) =>
          if x.time ≤ m.time then some (x, xs) else some (m, x :: rest)

/-- Python dict lookup `data.get(key)`. -/
def dictGet {K V : Type} [DecidableEq K] (d : List (K × V)) (k : K) : Option V :=
  (d.find? (fun p => p.1 = k)).map (fun p => p.2)

/-- Python dict deletion (`del data[key]`, with KeyError ignored). -/
def dictDel {K V : Type} [DecidableEq K] (d : List (K × V)) (k : K) : List (K × V) :=
  d.filter (fun p => ¬ p.1 = k)

/-- Python dict assignment `data[key] = value`. -/
def dictSet {K V : Type} [DecidableEq K] (d : List (K × V)) (k : K) (v : V) :
    List (K × V) :=
  (k, v) :: dictDel d k

structure LruDict (K V : Type) where
  heap : List (HeapItem K)
  data : List (K × V)
  maximumSize : Nat
  expireCallback : Option (K → V → Bool)

/-- `LruDict._expire_item` (lru.py lines 150-164): if a callback is set
and the key is cached, call the callback on the key and its value; a
`DontExpireError` result keeps the entry, otherwise the entry is
deleted.  Returns the new dict contents together with the list of
callback invocations performed (each with its key and value). -/
def expireItem {K V : Type} [DecidableEq K] (cb : Option (K → V → Bool))
    (data : List (K × V)) (k : K) : List (K × V) × List (K × V) :=
  match cb with
  | some f =>
      match dictGet data k with
      | some v => if f k v then (dictDel data k, [(k, v)]) else (data, [(k, v)])
      | none => (dictDel data k, [])
  | none => (dictDel data k, [])

/-- `LruDict._push_and_set` (lru.py lines 137-148): push a fresh
`HeapItem` when below `maximum_size`, else `heapreplace` the oldest
item out and expire its key, then set the new key in the dict.
Returns `none` when `heapq.heapreplace` raises IndexError (empty heap
with `maximum_size = 0`); otherwise the new state and the expire
callback invocations. -/
def pushAndSet {K V : Type} [DecidableEq K] (s : LruDict K V) (clock : Nat)
    (k : K) (v : V) : Option (LruDict K V × List (K × V)) :=
  let item : HeapItem K := { time := clock, key := k }
  if s.heap.length < s.maximumSize then
    some ({ s with heap := item :: s.heap, data := dictSet s.data k v }, [])
  else
    match heapPopMin s.heap with
    | none => none
    | some (old, rest) =>
        let expired := expireItem s.expireCallback s.data old.key
        some ({ s with heap := item :: rest, data := dictSet expired.1 k v },
              expired.2)

/-- The state invariant of the LRU dictionary: dict keys are pairwise
distinct, every cached key has an item on the heap, and the heap never
exceeds `maximum_size`. -/
def LruInv {K V : Type} (s : LruDict K V) : Prop :=
  (s.data.map Prod.fst).Nodup ∧
  (∀ k, k ∈ s.data.map Prod.fst → k ∈ s.heap.map HeapItem.key) ∧
  s.heap.length ≤ s.maximumSize

/-! ## Session (notch/agent/session.py)

A device is modelled by the outcomes of its successive `connect`,
`disconnect` and device-API-method calls, indexed by how many calls of
each kind have been made so far (`none` / `Except.ok` mean the Python
call returned; `some e` / `Except.error e` mean it raised `e`).  The
session state carries the per-device call counters so those outcome
streams advance; `time.time()` is supplied as a `clock` argument.
The lock acquire/release pair wrapping `Session.request` is modelled
separately as a transition system (see the lock section below). -/

structure Device where
  connectOutcome : Nat → Option ApiErr
  disconnectOutcome : Nat → Option ApiErr
  methodOutcome : Nat → Except ApiErr String

structure SessionState where
  device : Option Device
  credential : Option Credential
  connected : Bool
  idle : Bool
  timeLastConnect : Option Nat
  timeLastDisconnect : Option Nat
  timeLastResponse : Option Nat
  timeLastRequest : Option Nat
  connectCount : Nat
  methodCount : Nat
  disconnectCount : Nat

/-- The `valid_requests` tuple of session.py (lines 45-47). -/
def validRequests : List String :=
  ["command", "get_config", "set_config", "copy_file", "upload_file",
   "download_file", "delete_file", "lock", "unlock"]

namespace Session

/-- `Session.connect` (session.py lines 115-128).  With no device or
when already connected it returns immediately; with no credential it
raises NoMatchingCredentialError; otherwise it calls the device's
connect and on success records the time and sets the connected and
idle flags. -/
def connect (s : SessionState) (clock : Nat) : SessionState × Option ApiErr :=
  match s.device with
  | none => (s, none)
  | some dev =>
      if s.connected then (s, none)
      else
        match s.credential with
        | none => (s, some (mkApiErr ErrName.noMatchingCredentialError ""))
        | some _ =>
            match dev.connectOutcome s.connectCount with
            | some e => ({ s with connectCount := s.connectCount + 1 }, some e)
            | none =>
                ({ s with
                    connectCount := s.connectCount + 1
                    timeLastConnect := some clock
                    connected := true
                    idle := true }, none)

/-- `Session.disconnect` (session.py lines 130-139).  With no device or
when not connected it returns immediately; otherwise it calls the
device's disconnect and on success records the time and clears the
connected flag. -/
def disconnect (s : SessionState) (clock : Nat) : SessionState × Option ApiErr :=
  match s.device with
  | none => (s, none)
  | some dev =>
      if ¬ s.connected then (s, none)
      else
        match dev.disconnectOutcome s.disconnectCount with
        | some e => ({ s with disconnectCount := s.disconnectCount + 1 }, some e)
        | none =>
            ({ s with
                disconnectCount := s.disconnectCount + 1
                timeLastDisconnect := some clock
                connected := false
                idle := true }, none)

/-- `Session.request` (session.py lines 141-192), between the lock
acquire and release: validate the method name, require a device,
auto-connect if disconnected, then invoke the device method.  If the
method raises an ApiError `e`: disconnect when `e.disconnect_on_error`
is set; when `e.retry` is set, connect and invoke the device method a
second time, any outcome of which is final; otherwise re-raise `e`.
The `finally` block restores `idle := true` on every path.  (The
base64 encoding of a successful result, lines 194-200, is outside the
modelled claims and left as the identity.) -/
def request (s0 : SessionState) (method : String) (clock : Nat) :
    SessionState × Except ApiErr String :=
  if ¬ validRequests.contains method then
    (s0, Except.error (mkApiErr ErrName.invalidRequestError "Method not part of the device API."))
  else
    match s0.device with
    | none =>
        (s0, Except.error (mkApiErr ErrName.invalidDeviceError "Device not yet initialised."))
    | some dev =>
        let step1 := if ¬ s0.connected then connect s0 clock else (s0, none)
        match step1.2 with
        | some e => (step1.1, Except.error e)
        | none =>
            let s1 := { step1.1 with timeLastRequest := some clock, idle := false }
            match dev.methodOutcome s1.methodCount with
            | Except.ok v =>
                ({ s1 with
                    methodCount := s1.methodCount + 1
                    timeLastResponse := some clock
                    idle := true }, Except.ok v)
            | Except.error e =>
                let s2 := { s1 with methodCount := s1.methodCount + 1 }
                let step3 := if e.disconnectOnError then disconnect s2 clock else (s2, none)
                match step3.2 with
                | some e2 => ({ step3.1 with idle := true }, Except.error e2)
                | none =>
                    let s3 := step3.1
                    if e.retry then
                      let step4 := connect s3 clock
                      match step4.2 with
                      | some e3 => ({ step4.1 with idle := true }, Except.error e3)
                      | none =>
                          let s4 := step4.1
                          match dev.methodOutcome s4.methodCount with
                          | Except.ok v =>
                              ({ s4 with
                                  methodCount := s4.methodCount + 1
                                  timeLastResponse := some clock
                                  idle := true }, Except.ok v)
                          | Except.error e4 =>
                              ({ s4 with
                                  methodCount := s4.methodCount + 1
                                  idle := true }, Except.error e4)
                    else
                      ({ s3 with idle := true }, Except.error e)

end Session

/-! ## Transport command (notch/agent/devices/trans.py)

`DeviceTransport.command` is a sequence of `expect` calls.  Each call
is modelled by the outcome the device produced: the expected pattern
matched (`pattern`), the pager pattern matched (`pager`, only offered
when a pager regex is configured), end of file (`eof`), or a timeout
(`timeout`); each outcome carries the `before` data of that `expect`.
The method is a function of the outcome script; `none` models a
script that ends while `expect` would still be waiting.  The optional
sanitisation toggles (`strip_ansi`, `dos2unix`, `strip_chars`) are
modelled at their default (off) settings. -/

inductive ExpectOutcome
  | pattern (dataBefore : String)
  | pager (dataBefore : String)
  | eof (dataBefore : String)
  | timeout (dataBefore : String)
  deriving DecidableEq, Repr

/-- Does `pat` occur as a prefix of `hay` dropped at some index?  Used
to model Python substring search. -/
def rfindSub (hay pat : List Char) : Option Nat :=
  ((List.range (hay.length + 1)).filter
    (fun i => List.isPrefixOf pat (hay.drop i))).max?

/-- Python `sub in s` substring containment. -/
def containsSub (s sub : String) : Bool :=
  (rfindSub s.data sub.data).isSome

/-- Python `data.rfind(prompt)` truncation of trans.py lines 204-209:
cut `data` at the last occurrence of `prompt`, or keep all of it when
the prompt does not occur. -/
def truncAtLastOccurrence (data pat : String) : String :=
  match rfindSub data.data pat.data with
  | none => data
  | some i => { data := data.data.take i }

/-- The response loop of `DeviceTransport.command` (trans.py lines
169-221).  A pager match appends the data and answers the pager; the
prompt ends the command, returning the accumulated output with the
final chunk truncated at the last prompt occurrence; EOF raises a
CommandError with `retry = True`; a timeout raises a CommandError
without setting `retry`.  A `pager` outcome is only possible when a
pager pattern was supplied. -/
def commandLoop (prompt : String) (pager : Bool) :
    List String → List ExpectOutcome → Option (Except ApiErr String)
  | _, [] => none
  | buf, ev :: rest =>
      match ev with
      | ExpectOutcome.pager d =>
          if pager then commandLoop prompt pager (buf ++ [d]) rest else none
      | ExpectOutcome.pattern d =>
          some (Except.ok (String.join (buf ++ [truncAtLastOccurrence d prompt])))
      | ExpectOutcome.eof _ =>
          some (Except.error
            { mkApiErr ErrName.commandError "EOF received during command" with
                retry := true })
      | ExpectOutcome.timeout _ =>
          some (Except.error
            (mkApiErr ErrName.commandError
              "Command executed, CLI prompt not seen"))

/-- `DeviceTransport.command` (trans.py lines 116-221).  First expect
finds the prompt to flush the buffer: EOF raises a retryable
CommandError, a timeout raises a CommandError without `retry` set
(class default false).  The command is then written and its echo
expected: either EOF or timeout there raises a CommandError with
`retry = True`.  The remaining outcomes drive `commandLoop`. -/
def transportCommand (prompt : String) (pager : Bool)
    (script : List ExpectOutcome) : Option (Except ApiErr String) :=
  match script with
  | [] => none
  | ev1 :: rest1 =>
      match ev1 with
      | ExpectOutcome.pager _ => none
      | ExpectOutcome.eof _ =>
          some (Except.error
            { mkApiErr ErrName.commandError "EOF received during command" with
                retry := true })
      | ExpectOutcome.timeout _ =>
          some (Except.error
            (mkApiErr ErrName.commandError
              "CLI prompt not found prior to sending command."))
      | ExpectOutcome.pattern _ =>
          match rest1 with
          | [] => none
          | ev2 :: rest2 =>
              match ev2 with
              | ExpectOutcome.pager _ => none
              | ExpectOutcome.pattern _ => commandLoop prompt pager [] rest2
              | ExpectOutcome.eof _ =>
                  some (Except.error
                    { mkApiErr ErrName.commandError
                        "Device did not start response within short response timeout." with
                        retry := true })
              | ExpectOutcome.timeout _ =>
                  some (Except.error
                    { mkApiErr ErrName.commandError
                        "Device did not start response within short response timeout." with
                        retry := true })

/-! ## Device factory (notch/agent/device_factory.py) -/

/-- The keys of `VENDOR_MAP` (device_factory.py lines 44-57). -/
def vendorMapKeys : List String :=
  ["adva_fsp", "arbor", "cisco", "force10", "juniper", "netscreen",
   "nortel_bay", "nortel_esr", "nortel_esu", "nos", "omniswitch",
   "timetra", "telco"]

/-- `DeviceInfo` namedtuple (device_manager.py lines 41-42).
`socket.gethostbyname` returns a single dotted-quad string, which is
what is stored in `addresses`. -/
structure DeviceInfo where
  deviceName : String
  addresses : String
  deviceType : String
  deriving DecidableEq, Repr

/-- Exceptions crossing the factory/controller boundary: a Python
`KeyError` or an ApiError subclass instance. -/
inductive PyExc
  | keyError (msg : String)
  | apiError (e : ApiErr)
  deriving DecidableEq, Repr

/-- The device object built by `device_factory.new_device`. -/
structure FactoryDevice where
  name : String
  vendor : String
  addresses : String
  deriving DecidableEq, Repr

/-- `device_factory.new_device` (lines 60-78): an unknown vendor
raises `KeyError` (not NoSuchVendorError). -/
def newDevice (name vendor addresses : String) : Except PyExc FactoryDevice :=
  if ¬ vendorMapKeys.contains vendor then
    Except.error (PyExc.keyError "Device type/vendor is not valid.")
  else
    Except.ok { name := name, vendor := vendor, addresses := addresses }

/-! ## Rancid device provider (notch/agent/device_manager.py) -/

/-- The first three groups of `re_router_db_line.match(line)` with the
pattern `([^:]+):([^:]+):([^:]+)?:?([^:#]+?)?` under `re.match`
prefix-matching: two mandatory nonempty colon-free groups separated by
colons, then an optional greedy colon-free status group (`None` when
empty).  Returns `none` when the regex does not match the line. -/
def parseRouterDbLine (line : String) : Option (String × String × Option String) :=
  let p1 := line.data.span (fun c => ¬ c = ':')
  match p1.2 with
  | ':' :: r2 =>
      if p1.1 = [] then none
      else
        let p2 := r2.span (fun c => ¬ c = ':')
        match p2.2 with
        | ':' :: r4 =>
            if p2.1 = [] then none
            else
              let g3 := r4.takeWhile (fun c => ¬ c = ':')
              some ({ data := p1.1 }, { data := p2.1 },
                    if g3 = [] then none else some { data := g3 })
        | _ => none
  | _ => none

/-- Python whitespace characters recognised by `str.strip()`. -/
def isSpaceChar (c : Char) : Bool :=
  c = ' ' || c = '\t' || c = '\n' || c = '\r' || c = '\x0b' || c = '\x0c'

/-- Python `line.strip()`: drop leading and trailing whitespace. -/
def pyStrip (s : List Char) : List Char :=
  ((s.dropWhile isSpaceChar).reverse.dropWhile isSpaceChar).reverse

/-- Python `s.startswith('#')`. -/
def beginsWithHash : List Char → Bool
  | '#' :: _ => true
  | _ => false

/-- The Python `TypeError` raised by `'up' in status` when the status
group is `None`. -/
inductive RouterDbCrash
  | statusNoneTypeError
  deriving DecidableEq, Repr

/-- One iteration of the `_read_router_db` loop (device_manager.py
lines 137-163) over the accumulated `(devices, invalid-type log)`
state.  Comment lines and non-matching lines are skipped; a non-`up`
status is skipped unless `ignore_down_devices` is set; an unknown
device type is logged as invalid — but the loop then falls through
and still processes the device; a DNS failure skips the device;
otherwise the device is stored. -/
def readRouterDbLine (dns : String → Option String) (ignoreDown : Bool)
    (acc : List (String × DeviceInfo) × List String) (line : String) :
    Except RouterDbCrash (List (String × DeviceInfo) × List String) :=
  if beginsWithHash (pyStrip line.data) then Except.ok acc
  else
    match parseRouterDbLine line with
    | none => Except.ok acc
    | some (deviceName, deviceType, status) =>
        let vendorLog :=
          if ¬ vendorMapKeys.contains deviceType then acc.2 ++ [deviceType]
          else acc.2
        let store : Except RouterDbCrash (List (String × DeviceInfo) × List String) :=
          match dns deviceName with
          | none => Except.ok (acc.1, vendorLog)
          | some addr =>
              Except.ok
                (dictSet acc.1 deviceName
                  { deviceName := deviceName, addresses := addr,
                    deviceType := deviceType }, vendorLog)
        if ¬ ignoreDown then
          match status with
          | none => Except.error RouterDbCrash.statusNoneTypeError
          | some st => if ¬ containsSub st "up" then Except.ok acc else store
        else store

/-- `RancidDeviceProvider._read_router_db` (device_manager.py lines
128-166): fold the per-line step over the file, returning the device
dict and the list of device types logged as invalid. -/
def readRouterDb (dns : String → Option String) (ignoreDown : Bool)
    (lines : List String) :
    Except RouterDbCrash (List (String × DeviceInfo) × List String) :=
  lines.foldlM (readRouterDbLine dns ignoreDown) ([], [])

/-! ## Controller session creation (notch/agent/controller.py) -/

/-- `Controller.create_session` (controller.py lines 126-150): resolve
the device info for the key's device name (else NoSuchDeviceError) and
build the vendor device, whose unknown-vendor `KeyError` propagates. -/
def createSession (deviceInfoOf : String → Option DeviceInfo)
    (deviceName : String) : Except PyExc FactoryDevice :=
  match deviceInfoOf deviceName with
  | some info => newDevice info.deviceName info.deviceType info.addresses
  | none =>
      Except.error (PyExc.apiError (mkApiErr ErrName.noSuchDeviceError "Unknown device"))

/-- `Controller.get_session` (controller.py lines 156-191) on a cache
miss: the LRU populate callback runs `create_session`; a `KeyError`
escaping it is caught and turned into `None`, while other exceptions
propagate. -/
def getSession (deviceInfoOf : String → Option DeviceInfo)
    (deviceName : String) : Except PyExc (Option FactoryDevice) :=
  match createSession deviceInfoOf deviceName with
  | Except.ok s => Except.ok (some s)
  | Except.error (PyExc.keyError _) => Except.ok none
  | Except.error e => Except.error e

/-- The session-resolution part of `Controller.request` (controller.py
lines 193-213): a `None` session raises NoSessionCreatedError. -/
def controllerResolveSession (deviceInfoOf : String → Option DeviceInfo)
    (deviceName : String) : Except PyExc FactoryDevice :=
  match getSession deviceInfoOf deviceName with
  | Except.ok (some s) => Except.ok s
  | Except.ok none =>
      Except.error
        (PyExc.apiError (mkApiErr ErrName.noSessionCreatedError
          "No session available for request arguments"))
  | Except.error e => Except.error e

/-! ## Client request object (notch/client/client.py)

The `Request` lifecycle fields: `result` and `error` start as `None`;
`start` arms an eventlet timeout when `timeout_s` is set (`_timeout`
becomes non-None with `pending` true); the worker records a result or
an error; `finish` cancels the timer (pending becomes false); a timer
that fires also stops pending (and the raised TimeoutError is then
recorded as the error by the worker's exception handler). -/

structure CRequest where
  notchMethod : String
  timeoutS : Option Nat
  result : Option String
  error : Option String
  timerArmed : Bool
  timerPending : Bool
  deriving DecidableEq, Repr

namespace CRequest

/-- `Request.__init__` (client.py lines 196-214). -/
def made (method : String) (timeoutS : Option Nat) : CRequest :=
  { notchMethod := method, timeoutS := timeoutS, result := none,
    error := none, timerArmed := false, timerPending := false }

/-- `Request._completed` (client.py lines 225-231): with a timer
armed, completed also requires the timer not to be pending. -/
def completedB (r : CRequest) : Bool :=
  if r.timerArmed then
    (r.result.isSome || r.error.isSome) && ¬ r.timerPending
  else
    r.result.isSome || r.error.isSome

/-- `Request.start` (client.py lines 233-236): arm the eventlet
timeout when `timeout_s` is set. -/
def start (r : CRequest) : CRequest :=
  match r.timeoutS with
  | some _ => { r with timerArmed := true, timerPending := true }
  | none => r

/-- Recording the RPC result (`request.result = func(**args)` in
`_send_notch_api_request`, client.py line 379). -/
def recordResult (r : CRequest) (v : String) : CRequest :=
  { r with result := some v }

/-- Recording an error (`request.error = e` in
`_send_notch_api_request`, client.py lines 388 and 407). -/
def recordError (r : CRequest) (e : String) : CRequest :=
  { r with error := some e }

/-- `Request.finish` (client.py lines 238-240): cancel the timer. -/
def finish (r : CRequest) : CRequest :=
  if r.timerArmed then { r with timerPending := false } else r

/-- The armed eventlet timeout fires: it stops pending and raises
TimeoutError in the waiting green thread. -/
def timerFire (r : CRequest) : CRequest :=
  if r.timerArmed then { r with timerPending := false } else r

/-- One lifecycle step of a client Request. -/
inductive Step : CRequest → CRequest → Prop
  | start (r : CRequest) : Step r r.start
  | recordResult (r : CRequest) (v : String) : Step r (r.recordResult v)
  | recordError (r : CRequest) (e : String) : Step r (r.recordError e)
  | finish (r : CRequest) : Step r r.finish
  | timerFire (r : CRequest) : Step r r.timerFire

/-- States of the lifecycle reachable from a freshly made request. -/
def ReachableFrom (r0 r : CRequest) : Prop :=
  Relation.ReflTransGen Step r0 r

end CRequest

/-! ## The per-session exclusive lock (notch/agent/session.py)

`Session.__init__` creates `self._exclusive = threading.Lock()`
(line 52) and `Session.request` acquires it on entry and releases it
in the outermost `finally` (lines 145 and 192).  Concurrent `request`
calls against one session are modelled as a transition system over
`n` caller threads: each thread is idle or inside one of the phases
of the `request` body (method validation, device check, auto-connect,
device-method execution, ApiError handling with its retry, and the
`finally` blocks before the release).  A thread can enter the body
only by acquiring the free lock, and the lock is freed only by the
release transition at the end of the body. -/

inductive ReqPhase
  | idle
  | validating
  | checkingDevice
  | connecting
  | executing
  | handlingError
  | finishing
  deriving DecidableEq, Repr

structure LockSys (n : Nat) where
  lock : Option (Fin n)
  pc : Fin n → ReqPhase

/-- All threads outside `request`, lock free. -/
def LockSys.init (n : Nat) : LockSys n :=
  { lock := none, pc := fun _ => ReqPhase.idle }

/-- The interleaving steps of concurrent `Session.request` calls.
Acquisition requires the lock to be free; every phase of the body then
runs with the lock unchanged; release frees the lock and leaves the
body.  Early-error paths jump to the `finally` phase directly. -/
inductive LockStep (n : Nat) : LockSys n → LockSys n → Prop
  | acquire (s : LockSys n) (t : Fin n) :
      s.lock = none → s.pc t = ReqPhase.idle →
      LockStep n s { lock := some t,
                     pc := Function.update s.pc t ReqPhase.validating }
  | validated (s : LockSys n) (t : Fin n) :
      s.pc t = ReqPhase.validating →
      LockStep n s { s with pc := Function.update s.pc t ReqPhase.checkingDevice }
  | invalidMethod (s : LockSys n) (t : Fin n) :
      s.pc t = ReqPhase.validating →
      LockStep n s { s with pc := Function.update s.pc t ReqPhase.finishing }
  | deviceOk (s : LockSys n) (t : Fin n) :
      s.pc t = ReqPhase.checkingDevice →
      LockStep n s { s with pc := Function.update s.pc t ReqPhase.connecting }
  | deviceMissing (s : LockSys n) (t : Fin n) :
      s.pc t = ReqPhase.checkingDevice →
      LockStep n s { s with pc := Function.update s.pc t ReqPhase.finishing }
  | connected (s : LockSys n) (t : Fin n) :
      s.pc t = ReqPhase.connecting →
      LockStep n s { s with pc := Function.update s.pc t ReqPhase.executing }
  | connectFailed (s : LockSys n) (t : Fin n) :
      s.pc t = ReqPhase.connecting →
      LockStep n s { s with pc := Function.update s.pc t ReqPhase.finishing }
  | executed (s : LockSys n) (t : Fin n) :
      s.pc t = ReqPhase.executing →
      LockStep n s { s with pc := Function.update s.pc t ReqPhase.finishing }
  | apiErrorRaised (s : LockSys n) (t : Fin n) :
      s.pc t = ReqPhase.executing →
      LockStep n s { s with pc := Function.update s.pc t ReqPhase.handlingError }
  | errorHandled (s : LockSys n) (t : Fin n) :
      s.pc t = ReqPhase.handlingError →
      LockStep n s { s with pc := Function.update s.pc t ReqPhase.finishing }
  | release (s : LockSys n) (t : Fin n) :
      s.pc t = ReqPhase.finishing →
      LockStep n s { lock := none,
                     pc := Function.update s.pc t ReqPhase.idle }

/-- Reachability from the all-idle initial state. -/
def LockReach (n : Nat) (s : LockSys n) : Prop :=
  Relation.ReflTransGen (LockStep n) (LockSys.init n) s

/-- A thread is executing the body of `Session.request`. -/
def inRequestBody {n : Nat} (s : LockSys n) (t : Fin n) : Prop :=
  ¬ s.pc t = ReqPhase.idle

/-- The lock invariant: any thread inside the `request` body holds the
session's exclusive lock. -/
def LockInv {n : Nat} (s : LockSys n) : Prop :=
  ∀ t : Fin n, inRequestBody s t → s.lock = some t

/-! ## Concrete instances used by witnesses and counterexamples -/

/-- Two threads, thread 0 has just acquired the session lock. -/
def lockDemoState : LockSys 2 :=
  { lock := some 0,
    pc := Function.update (LockSys.init 2).pc 0 ReqPhase.validating }

/-- A CommandError whose `retry` flag was set (as trans.py does). -/
def c2err : ApiErr :=
  { mkApiErr ErrName.commandError "boom" with retry := true }

/-- A credential used by session examples. -/
def demoCredential : Credential :=
  Credential.make "xr1.foo" Regex.eps (some "fred") (some "pw") none none none
    false (some "sshv2")

/-- A device whose first API-method call raises `c2err` and whose
second call succeeds. -/
def c2dev : Device :=
  { connectOutcome := fun _ => none
    disconnectOutcome := fun _ => none
    methodOutcome := fun i => if i = 0 then Except.error c2err else Except.ok "output" }

/-- A connected session on `c2dev`. -/
def c2session : SessionState :=
  { device := some c2dev, credential := some demoCredential,
    connected := true, idle := true,
    timeLastConnect := some 0, timeLastDisconnect := none,
    timeLastResponse := none, timeLastRequest := none,
    connectCount := 1, methodCount := 0, disconnectCount := 0 }

/-- Credentials store with two entries: `^r1$` then a catch-all. -/
def c3cred1 : Credential :=
  Credential.make "r1" (Regex.cat (Regex.char 'r') (Regex.char '1'))
    (some "alice") none none none none false none

def c3cred2 : Credential :=
  Credential.make "r1" (Regex.cat (Regex.char 'r') (Regex.char '1'))
    (some "bob") none none none none false none

/-- An LRU bounded at one entry whose expire callback always raises
`DontExpireError`. -/
def c4refuseLru : LruDict Nat Nat :=
  { heap := [], data := [], maximumSize := 1,
    expireCallback := some (fun _ _ => false) }

/-- The dict size after two inserts into `c4refuseLru`. -/
def c4refuseSize : Option Nat :=
  match pushAndSet c4refuseLru 0 10 100 with
  | some (s1, _) =>
      match pushAndSet s1 1 20 200 with
      | some (s2, _) => some s2.data.length
      | none => none
  | none => none

/-- An empty LRU bounded at one entry with a callback that permits
expiry. -/
def c4demoLru : LruDict Nat Nat :=
  { heap := [], data := [], maximumSize := 1,
    expireCallback := some (fun _ _ => true) }

/-- DNS map for the router.db example: only `foo.example` resolves. -/
def c6dns : String → Option String := fun name =>
  if name = "foo.example" then some "10.0.0.1" else none

/-- A router.db file with a comment and a device of unknown type. -/
def c6lines : List String :=
  ["# comment line\n", "foo.example:fakevendor:up\n"]

/-- Registry resolving `example.foo` to a device of unknown vendor. -/
def c7infoOf : String → Option DeviceInfo := fun name =>
  if name = "example.foo" then
    some { deviceName := "example.foo", addresses := "10.0.0.2",
           deviceType := "fakevendor" }
  else none

/-- Two credentials that agree on every field `__eq__` compares but
differ in `auto_enable` and `connect_method`. -/
def c8credA : Credential :=
  Credential.make "sw1.example" Regex.eps (some "fred") (some "pw") none none
    none false (some "sshv2")

def c8credB : Credential :=
  Credential.make "sw1.example" Regex.eps (some "fred") (some "pw") none none
    none true (some "telnet")

/-- A client request with a timeout configured. -/
def c9req0 : CRequest := CRequest.made "command" (some 5)

/-- The same request after `start` armed the timer and the worker
recorded the RPC result, before `finish` cancels the timer. -/
def c9req2 : CRequest := (c9req0.start).recordResult "b64result"

/-- A session without a device (and without a credential). -/
def c10state : SessionState :=
  { device := none, credential := none, connected := false, idle := true,
    timeLastConnect := none, timeLastDisconnect := none,
    timeLastResponse := none, timeLastRequest := none,
    connectCount := 0, methodCount := 0, disconnectCount := 0 }

/-! ## Theorems -/

theorem lockInv_init (n : Nat) : LockInv (LockSys.init n) := by
  intro t ht
  exact absurd rfl ht

theorem lockInv_update_body {n : Nat} (s : LockSys n) (t : Fin n)
    (ph : ReqPhase) (_hph : ¬ ph = ReqPhase.idle)
    (hpc : ¬ s.pc t = ReqPhase.idle) (hinv : LockInv s) :
    LockInv { s with pc := Function.update s.pc t ph } := by
  intro u hu
  by_cases hut : u = t
  · subst hut
    exact hinv u hpc
  · have hpu : ¬ s.pc u = ReqPhase.idle := by
      simpa [inRequestBody, Function.update, hut] using hu
    exact hinv u hpu

theorem lockInv_step {n : Nat} {s s' : LockSys n} (hinv : LockInv s)
    (hstep : LockStep n s s') : LockInv s' := by
  cases hstep with
  | acquire t hlock hpc =>
      intro u hu
      by_cases hut : u = t
      · subst hut
        rfl
      · exfalso
        have hpu : ¬ s.pc u = ReqPhase.idle := by
          simpa [inRequestBody, Function.update, hut] using hu
        have hcontra := hinv u hpu
        rw [hlock] at hcontra
        exact Option.noConfusion hcontra
  | validated t hpc =>
      exact lockInv_update_body _ t _ (by simp) (by rw [hpc]; simp) hinv
  | invalidMethod t hpc =>
      exact lockInv_update_body _ t _ (by simp) (by rw [hpc]; simp) hinv
  | deviceOk t hpc =>
      exact lockInv_update_body _ t _ (by simp) (by rw [hpc]; simp) hinv
  | deviceMissing t hpc =>
      exact lockInv_update_body _ t _ (by simp) (by rw [hpc]; simp) hinv
  | connected t hpc =>
      exact lockInv_update_body _ t _ (by simp) (by rw [hpc]; simp) hinv
  | connectFailed t hpc =>
      exact lockInv_update_body _ t _ (by simp) (by rw [hpc]; simp) hinv
  | executed t hpc =>
      exact lockInv_update_body _ t _ (by simp) (by rw [hpc]; simp) hinv
  | apiErrorRaised t hpc =>
      exact lockInv_update_body _ t _ (by simp) (by rw [hpc]; simp) hinv
  | errorHandled t hpc =>
      exact lockInv_update_body _ t _ (by simp) (by rw [hpc]; simp) hinv
  | release t hpc =>
      intro u hu
      exfalso
      by_cases hut : u = t
      · subst hut
        exact hu (by simp [Function.update])
      · have hpu : ¬ s.pc u = ReqPhase.idle := by
          simpa [inRequestBody, Function.update, hut] using hu
        have h1 := hinv u hpu
        have h2 := hinv t (by simp [inRequestBody, hpc])
        rw [h1] at h2
        injection h2 with h3
        exact hut h3

theorem lockReach_inv {n : Nat} (s : LockSys n) (h : LockReach n s) :
    LockInv s := by
  induction h with
  | refl => exact lockInv_init n
  | tail hsteps hstep ih => exact lockInv_step ih hstep

/-- In every reachable interleaving of concurrent `Session.request`
calls on one session, any thread inside the request body — from
method validation through connect, device-method execution and error
handling to the `finally` blocks — holds the session's exclusive
lock, and hence at most one `request` call is executing against the
session at any moment.  (The order in which blocked callers
subsequently acquire the lock is decided by `threading.Lock`'s waiter
wake-up order, which is outside this code and carries no FIFO
guarantee, so no ordering statement is made here.) -/
theorem sessionLock_mutual_exclusion (n : Nat) (s : LockSys n)
    (h : LockReach n s) :
    (∀ t, inRequestBody s t → s.lock = some t) ∧
    (∀ t1 t2, inRequestBody s t1 → inRequestBody s t2 → t1 = t2) := by
  have hinv := lockReach_inv s h
  refine ⟨hinv, ?_⟩
  intro t1 t2 h1 h2
  have e1 := hinv t1 h1
  have e2 := hinv t2 h2
  rw [e1] at e2
  exact Option.some.inj e2

/-- The two-thread state in which thread 0 has just acquired the lock
is reachable and mutually exclusive. -/
theorem sessionLock_mutual_exclusion_demo :
    (∀ t, inRequestBody lockDemoState t → lockDemoState.lock = some t) ∧
    (∀ t1 t2, inRequestBody lockDemoState t1 →
      inRequestBody lockDemoState t2 → t1 = t2) :=
  sessionLock_mutual_exclusion 2 lockDemoState
    (Relation.ReflTransGen.single
      (LockStep.acquire (LockSys.init 2) 0 rfl rfl))

theorem find?_eq_some_first {α : Type} (p : α → Bool) (l : List α) (a : α) :
    l.find? p = some a ↔
      ∃ pre post, l = pre ++ a :: post ∧ p a = true ∧
        ∀ x ∈ pre, p x = false := by
  induction l with
  | nil =>
      simp only [List.find?_nil]
      constructor
      · intro h
        exact Option.noConfusion h
      · rintro ⟨pre, post, heq, -, -⟩
        exact absurd heq (List.append_ne_nil_of_right_ne_nil pre (List.cons_ne_nil a post)).symm
  | cons x xs ih =>
      by_cases hx : p x = true
      · rw [List.find?_cons_of_pos _ hx]
        constructor
        · intro h
          have hax : x = a := Option.some.inj h
          subst hax
          exact ⟨[], xs, rfl, hx, by intro z hz; exact absurd hz (List.not_mem_nil z)⟩
        · rintro ⟨pre, post, heq, hpa, hpre⟩
          cases pre with
          | nil =>
              have : x = a := (List.cons.injEq _ _ _ _ ▸ heq).1
              rw [this]
          | cons y ys =>
              have hxy : x = y := (List.cons.injEq _ _ _ _ ▸ heq).1
              have : p y = false := hpre y (List.mem_cons_self y ys)
              rw [← hxy, hx] at this
              exact Bool.noConfusion this
      · have hx' : p x = false := Bool.eq_false_iff.mpr hx
        rw [List.find?_cons_of_neg _ hx, ih]
        constructor
        · rintro ⟨pre, post, heq, hpa, hpre⟩
          refine ⟨x :: pre, post, by rw [heq]; rfl, hpa, ?_⟩
          intro z hz
          rcases List.mem_cons.mp hz with hzx | hzp
          · rw [hzx]; exact hx'
          · exact hpre z hzp
        · rintro ⟨pre, post, heq, hpa, hpre⟩
          cases pre with
          | nil =>
              have : x = a := (List.cons.injEq _ _ _ _ ▸ heq).1
              rw [← this] at hpa
              exact absurd hpa hx
          | cons y ys =>
              have h1 : xs = ys ++ a :: post := (List.cons.injEq _ _ _ _ ▸ heq).2
              refine ⟨ys, post, h1, hpa, ?_⟩
              intro z hz
              exact hpre z (List.mem_cons_of_mem y hz)

/-- Claim C3: `get_credential` returns the first credential in list
order whose anchored case-insensitive pattern matches the hostname;
an empty or null hostname, or a hostname no credential matches,
raises NoMatchingCredentialError. -/
theorem claim_C3_get_credential_first_match (credentials : List Credential)
    (h : String) (hne : ¬ h = "") :
    (∀ c, getCredential credentials (some h) = Except.ok c ↔
       ∃ pre post, credentials = pre ++ c :: post ∧
         c.matchesHost (some h) = true ∧
         ∀ c' ∈ pre, c'.matchesHost (some h) = false) ∧
    ((∀ c ∈ credentials, c.matchesHost (some h) = false) →
       ∃ m, getCredential credentials (some h) =
         Except.error (CredErr.noMatchingCredentialError m)) ∧
    (∃ m, getCredential credentials none =
       Except.error (CredErr.noMatchingCredentialError m)) ∧
    (∃ m, getCredential credentials (some "") =
       Except.error (CredErr.noMatchingCredentialError m)) := by
  refine ⟨?_, ?_, ⟨_, rfl⟩, ⟨"No credentials for host", rfl⟩⟩
  · intro c
    simp only [getCredential, if_neg hne]
    constructor
    · intro hc
      have hfind : credentials.find? (fun c => c.matchesHost (some h)) = some c := by
        cases hf : credentials.find? (fun c => c.matchesHost (some h)) with
        | none => rw [hf] at hc; exact Except.noConfusion hc
        | some c' =>
            rw [hf] at hc
            rw [← Except.ok.inj hc]
      exact (find?_eq_some_first _ credentials c).mp hfind
    · intro hdecomp
      have hfind := (find?_eq_some_first
        (fun c => c.matchesHost (some h)) credentials c).mpr hdecomp
      rw [hfind]
  · intro hnone
    have hfind : credentials.find? (fun c => c.matchesHost (some h)) = none :=
      List.find?_eq_none.mpr (by intro x hx; rw [hnone x hx]; exact Bool.false_ne_true)
    simp only [getCredential, if_neg hne, hfind]
    exact ⟨_, rfl⟩

/-- Claim C3 (witness): with two credentials both matching pattern
`r1`, the hostname `R1` (case-insensitively equal) selects the first
of them. -/
theorem claim_C3_witness :
    getCredential [c3cred1, c3cred2] (some "R1") = Except.ok c3cred1 :=
  ((claim_C3_get_credential_first_match [c3cred1, c3cred2] "R1"
      (by decide)).1 c3cred1).mpr
    ⟨[], [c3cred2], rfl, by decide,
      by intro c' hc'; exact absurd hc' (List.not_mem_nil c')⟩

theorem heapPopMin_eq_none_iff {K : Type} (h : List (HeapItem K)) :
    heapPopMin h = none ↔ h = [] := by
  cases h with
  | nil => simp [heapPopMin]
  | cons x xs =>
      constructor
      · intro hc
        exfalso
        unfold heapPopMin at hc
        cases hxs : heapPopMin xs <;> rw [hxs] at hc
        · exact Option.noConfusion hc
        · rename_i p
          obtain ⟨m, rest⟩ := p
          dsimp only at hc
          by_cases hle : x.time ≤ m.time
          · rw [if_pos hle] at hc; exact Option.noConfusion hc
          · rw [if_neg hle] at hc; exact Option.noConfusion hc
      · intro hc
        exact absurd hc (List.cons_ne_nil x xs)

theorem heapPopMin_perm {K : Type} (h : List (HeapItem K)) (m : HeapItem K)
    (rest : List (HeapItem K)) (heq : heapPopMin h = some (m, rest)) :
    h.Perm (m :: rest) := by
  induction h generalizing m rest with
  | nil => exact absurd heq (by simp [heapPopMin])
  | cons x xs ih =>
      unfold heapPopMin at heq
      cases hxs : heapPopMin xs <;> rw [hxs] at heq
      · have hnil : xs = [] := (heapPopMin_eq_none_iff xs).mp hxs
        subst hnil
        obtain ⟨h1, h2⟩ := Prod.mk.injEq _ _ _ _ ▸ Option.some.inj heq
        subst h1
        subst h2
        exact List.Perm.refl _
      · rename_i p
        obtain ⟨m', rest'⟩ := p
        dsimp only at heq
        by_cases hle : x.time ≤ m'.time
        · rw [if_pos hle] at heq
          obtain ⟨h1, h2⟩ := Prod.mk.injEq _ _ _ _ ▸ Option.some.inj heq
          subst h1
          subst h2
          exact List.Perm.refl _
        · rw [if_neg hle] at heq
          obtain ⟨h1, h2⟩ := Prod.mk.injEq _ _ _ _ ▸ Option.some.inj heq
          subst h1
          subst h2
          exact List.Perm.trans (List.Perm.cons x (ih m' rest' hxs))
            (List.Perm.swap m' x rest')

theorem heapPopMin_time_le {K : Type} (h : List (HeapItem K)) (m : HeapItem K)
    (rest : List (HeapItem K)) (heq : heapPopMin h = some (m, rest)) :
    ∀ x ∈ h, m.time ≤ x.time := by
  induction h generalizing m rest with
  | nil => exact absurd heq (by simp [heapPopMin])
  | cons x xs ih =>
      unfold heapPopMin at heq
      cases hxs : heapPopMin xs <;> rw [hxs] at heq
      · have hnil : xs = [] := (heapPopMin_eq_none_iff xs).mp hxs
        subst hnil
        obtain ⟨h1, h2⟩ := Prod.mk.injEq _ _ _ _ ▸ Option.some.inj heq
        subst h1
        intro y hy
        rcases List.mem_cons.mp hy with hyx | hyn
        · rw [hyx]
        · exact absurd hyn (List.not_mem_nil y)
      · rename_i p
        obtain ⟨m', rest'⟩ := p
        dsimp only at heq
        by_cases hle : x.time ≤ m'.time
        · rw [if_pos hle] at heq
          obtain ⟨h1, h2⟩ := Prod.mk.injEq _ _ _ _ ▸ Option.some.inj heq
          subst h1
          intro y hy
          rcases List.mem_cons.mp hy with hyx | hyn
          · rw [hyx]
          · exact le_trans hle (ih m' rest' hxs y hyn)
        · rw [if_neg hle] at heq
          obtain ⟨h1, h2⟩ := Prod.mk.injEq _ _ _ _ ▸ Option.some.inj heq
          subst h1
          intro y hy
          rcases List.mem_cons.mp hy with hyx | hyn
          · rw [hyx]
            exact le_of_lt (Nat.lt_of_not_le hle)
          · exact ih m' rest' hxs y hyn

theorem keys_dictDel {K V : Type} [DecidableEq K] (d : List (K × V)) (k : K) :
    (dictDel d k).map Prod.fst = (d.map Prod.fst).filter (fun a => ¬ a = k) := by
  induction d with
  | nil => rfl
  | cons p ps ih =>
      by_cases hp : p.1 = k
      · simpa [dictDel, List.filter_cons, hp] using ih
      · simpa [dictDel, List.filter_cons, hp] using ih

theorem mem_keys_dictDel {K V : Type} [DecidableEq K] (d : List (K × V))
    (k a : K) :
    a ∈ (dictDel d k).map Prod.fst ↔ a ∈ d.map Prod.fst ∧ ¬ a = k := by
  rw [keys_dictDel, List.mem_filter]
  simp

theorem keys_dictSet {K V : Type} [DecidableEq K] (d : List (K × V)) (k : K)
    (v : V) :
    (dictSet d k v).map Prod.fst = k :: (dictDel d k).map Prod.fst := rfl

theorem mem_keys_dictSet {K V : Type} [DecidableEq K] (d : List (K × V))
    (k a : K) (v : V) :
    a ∈ (dictSet d k v).map Prod.fst ↔
      a = k ∨ (a ∈ d.map Prod.fst ∧ ¬ a = k) := by
  rw [keys_dictSet, List.mem_cons, mem_keys_dictDel]

theorem nodup_keys_dictSet {K V : Type} [DecidableEq K] (d : List (K × V))
    (k : K) (v : V) (h : (d.map Prod.fst).Nodup) :
    ((dictSet d k v).map Prod.fst).Nodup := by
  rw [keys_dictSet, keys_dictDel]
  refine List.nodup_cons.mpr ⟨?_, h.filter _⟩
  intro hk
  have hk2 := (List.mem_filter.mp hk).2
  simp at hk2

theorem nodup_subset_length_le {α : Type} (l m : List α) (hn : l.Nodup)
    (hs : ∀ a ∈ l, a ∈ m) : l.length ≤ m.length :=
  List.Subperm.length_le (List.Nodup.subperm hn (fun {a} ha => hs a ha))

theorem data_le_heap_of_keys {K V : Type} (data : List (K × V))
    (heap : List (HeapItem K)) (hnd : (data.map Prod.fst).Nodup)
    (hsub : ∀ a ∈ data.map Prod.fst, a ∈ heap.map HeapItem.key) :
    data.length ≤ heap.length := by
  have h := nodup_subset_length_le (data.map Prod.fst) (heap.map HeapItem.key)
    hnd hsub
  simpa [List.length_map] using h

theorem expireItem_permissive {K V : Type} [DecidableEq K] (f : K → V → Bool)
    (hf : ∀ a b, f a b = true) (data : List (K × V)) (k : K) :
    expireItem (some f) data k =
      (dictDel data k,
        match dictGet data k with
        | some w => [(k, w)]
        | none => []) := by
  unfold expireItem
  cases hget : dictGet data k with
  | none => rfl
  | some w => simp [hf k w]

/-- Claim C4 (counterexample): with `maximum_size = 1` and an expire
callback that raises `DontExpireError`, two inserts leave two entries
in the cache, exceeding the bound. -/
theorem claim_C4_counterexample :
    c4refuseLru.maximumSize = 1 ∧ c4refuseSize = some 2 ∧
    ¬ (2 ≤ c4refuseLru.maximumSize) := by
  exact ⟨rfl, rfl, by decide⟩

/-- Claim C4 (amended): provided the expire callback is configured and
never raises `DontExpireError` (and `maximum_size ≥ 1`), every insert
into an LRU dictionary satisfying the state invariant succeeds and
keeps the number of cached entries at most `maximum_size`; an insert
at capacity pops an entry of oldest insertion timestamp from the
min-heap, and the expire callback is invoked on that entry's key and
cached value before the entry is removed. -/
theorem claim_C4_lru_insert_bound {K V : Type} [DecidableEq K]
    (s : LruDict K V) (clock : Nat) (k : K) (v : V)
    (hinv : LruInv s) (hpos : 1 ≤ s.maximumSize)
    (hcb : ∃ f, s.expireCallback = some f ∧ ∀ a b, f a b = true) :
    ∃ s' calls, pushAndSet s clock k v = some (s', calls) ∧
      LruInv s' ∧ s'.maximumSize = s.maximumSize ∧
      s'.data.length ≤ s.maximumSize ∧
      (s.maximumSize ≤ s.heap.length →
        ∃ old rest, heapPopMin s.heap = some (old, rest) ∧
          (∀ it ∈ s.heap, old.time ≤ it.time) ∧
          calls = (match dictGet s.data old.key with
                   | some w => [(old.key, w)]
                   | none => [])) := by
  obtain ⟨hnd, hsub, hlen⟩ := hinv
  obtain ⟨f, hf, hft⟩ := hcb
  by_cases hcap : s.heap.length < s.maximumSize
  · have hnd' := nodup_keys_dictSet s.data k v hnd
    have hsub' : ∀ a ∈ (dictSet s.data k v).map Prod.fst,
        a ∈ ((⟨clock, k⟩ : HeapItem K) :: s.heap).map HeapItem.key := by
      intro a ha
      rw [mem_keys_dictSet] at ha
      simp only [List.map_cons]
      rcases ha with rfl | ⟨hmem, hne⟩
      · exact List.mem_cons_self _ _
      · exact List.mem_cons_of_mem _ (hsub a hmem)
    have hlen' : ((⟨clock, k⟩ : HeapItem K) :: s.heap).length ≤ s.maximumSize := by
      simp only [List.length_cons]
      omega
    refine ⟨{ s with heap := ⟨clock, k⟩ :: s.heap, data := dictSet s.data k v },
      [], by simp [pushAndSet, if_pos hcap], ⟨hnd', hsub', hlen'⟩,
      rfl, ?_, ?_⟩
    · exact le_trans (data_le_heap_of_keys _ _ hnd' hsub') hlen'
    · intro hge
      exact absurd hge (not_le.mpr hcap)
  · have hlenEq : s.heap.length = s.maximumSize :=
      le_antisymm hlen (not_lt.mp hcap)
    have hne : ¬ s.heap = [] := by
      intro h0
      rw [h0] at hlenEq
      simp at hlenEq
      omega
    obtain ⟨old, rest, hpop⟩ :
        ∃ old rest, heapPopMin s.heap = some (old, rest) := by
      cases hp : heapPopMin s.heap with
      | none => exact absurd ((heapPopMin_eq_none_iff s.heap).mp hp) hne
      | some pr => exact ⟨pr.1, pr.2, rfl⟩
    have hperm := heapPopMin_perm s.heap old rest hpop
    have hmin := heapPopMin_time_le s.heap old rest hpop
    have hexp := expireItem_permissive f hft s.data old.key
    have hpush : pushAndSet s clock k v =
        some ({ s with heap := ⟨clock, k⟩ :: rest,
                       data := dictSet (dictDel s.data old.key) k v },
              (match dictGet s.data old.key with
               | some w => [(old.key, w)]
               | none => [])) := by
      simp [pushAndSet, hcap, hpop, hf, hexp]
    have hnd1 : ((dictDel s.data old.key).map Prod.fst).Nodup := by
      rw [keys_dictDel]
      exact hnd.filter _
    have hnd' := nodup_keys_dictSet (dictDel s.data old.key) k v hnd1
    have hpermKeys : (s.heap.map HeapItem.key).Perm
        (old.key :: rest.map HeapItem.key) := by
      have hk := hperm.map HeapItem.key
      simpa using hk
    have hsub' : ∀ a ∈ (dictSet (dictDel s.data old.key) k v).map Prod.fst,
        a ∈ ((⟨clock, k⟩ : HeapItem K) :: rest).map HeapItem.key := by
      intro a ha
      rw [mem_keys_dictSet] at ha
      simp only [List.map_cons]
      rcases ha with rfl | ⟨hmem, hne2⟩
      · exact List.mem_cons_self _ _
      · rw [mem_keys_dictDel] at hmem
        obtain ⟨hmem2, hneold⟩ := hmem
        have hmem3 : a ∈ old.key :: rest.map HeapItem.key :=
          hpermKeys.mem_iff.mp (hsub a hmem2)
        rcases List.mem_cons.mp hmem3 with h | h
        · exact absurd h hneold
        · exact List.mem_cons_of_mem _ h
    have hlenrest : rest.length + 1 = s.heap.length := by
      have hk := hperm.length_eq
      simp at hk
      omega
    have hheapLen' : ((⟨clock, k⟩ : HeapItem K) :: rest).length ≤
        s.maximumSize := by
      simp only [List.length_cons]
      omega
    refine ⟨_, _, hpush, ⟨hnd', hsub', hheapLen'⟩, rfl, ?_, ?_⟩
    · exact le_trans (data_le_heap_of_keys _ _ hnd' hsub') hheapLen'
    · intro _
      exact ⟨old, rest, hpop, hmin, rfl⟩

/-- Claim C4 (witness): inserting into the empty one-entry LRU with a
permissive callback keeps the invariant and the size bound. -/
theorem claim_C4_witness :
    ∃ s' calls, pushAndSet c4demoLru 0 1 2 = some (s', calls) ∧
      LruInv s' ∧ s'.data.length ≤ c4demoLru.maximumSize := by
  obtain ⟨s', calls, h1, h2, _, h4, _⟩ :=
    claim_C4_lru_insert_bound c4demoLru 0 1 2
      ⟨List.nodup_nil, by intro a ha; exact absurd ha (List.not_mem_nil a),
        by simp [c4demoLru]⟩
      (by simp [c4demoLru])
      ⟨fun _ _ => true, rfl, fun _ _ => rfl⟩
  exact ⟨s', calls, h1, h2, h4⟩

/-- Claim C2: on a session with a device and a valid method name,
when the invoked device method raises an ApiError `e`,
`Session.request` performs a device disconnect exactly when
`e.disconnect_on_error` is set; when `e.retry` is set it invokes the
device method exactly one more time and that second outcome — success
or failure — is returned unchanged; when `e.retry` is clear the device
method is not retried and `e` itself is re-raised. -/
theorem claim_C2_request_error_retry (s0 : SessionState) (dev : Device)
    (method : String) (clock : Nat) (e : ApiErr)
    (hdev : s0.device = some dev)
    (hm : validRequests.contains method = true)
    (hconn : s0.connected = true)
    (hcred : ¬ s0.credential = none)
    (hfirst : dev.methodOutcome s0.methodCount = Except.error e)
    (hdisc : dev.disconnectOutcome s0.disconnectCount = none)
    (hrecon : dev.connectOutcome s0.connectCount = none) :
    ((Session.request s0 method clock).1.disconnectCount =
        s0.disconnectCount + 1 ↔ e.disconnectOnError = true) ∧
    (e.retry = true →
      (Session.request s0 method clock).1.methodCount = s0.methodCount + 2 ∧
      (∀ v, dev.methodOutcome (s0.methodCount + 1) = Except.ok v →
         (Session.request s0 method clock).2 = Except.ok v) ∧
      (∀ e2, dev.methodOutcome (s0.methodCount + 1) = Except.error e2 →
         (Session.request s0 method clock).2 = Except.error e2)) ∧
    (e.retry = false →
      (Session.request s0 method clock).1.methodCount = s0.methodCount + 1 ∧
      (Session.request s0 method clock).2 = Except.error e) := by
  obtain ⟨cred, hcredeq⟩ : ∃ c, s0.credential = some c := by
    cases hc : s0.credential
    · exact absurd hc hcred
    · exact ⟨_, rfl⟩
  have hmem : method ∈ validRequests := by simpa using hm
  cases hD : e.disconnectOnError <;> cases hR : e.retry
  · refine ⟨?_, ?_, ?_⟩
    · simp [Session.request, Session.connect, Session.disconnect, hm, hdev,
        hconn, hcredeq, hfirst, hdisc, hrecon, hD, hR, hmem]
    · simp [hR]
    · intro _
      constructor <;>
        simp [Session.request, Session.connect, Session.disconnect, hm, hdev,
          hconn, hcredeq, hfirst, hdisc, hrecon, hD, hR, hmem]
  · refine ⟨?_, ?_, ?_⟩
    · cases h2 : dev.methodOutcome (s0.methodCount + 1) <;>
        simp [Session.request, Session.connect, Session.disconnect, hm, hdev,
          hconn, hcredeq, hfirst, hdisc, hrecon, hD, hR, h2, hmem]
    · intro _
      refine ⟨?_, ?_, ?_⟩
      · cases h2 : dev.methodOutcome (s0.methodCount + 1) <;>
          simp [Session.request, Session.connect, Session.disconnect, hm, hdev,
            hconn, hcredeq, hfirst, hdisc, hrecon, hD, hR, h2, hmem]
      · intro v hv
        simp [Session.request, Session.connect, Session.disconnect, hm, hdev,
          hconn, hcredeq, hfirst, hdisc, hrecon, hD, hR, hv, hmem]
      · intro e2 he2
        simp [Session.request, Session.connect, Session.disconnect, hm, hdev,
          hconn, hcredeq, hfirst, hdisc, hrecon, hD, hR, he2, hmem]
    · simp [hR]
  · refine ⟨?_, ?_, ?_⟩
    · simp [Session.request, Session.connect, Session.disconnect, hm, hdev,
        hconn, hcredeq, hfirst, hdisc, hrecon, hD, hR, hmem]
    · simp [hR]
    · intro _
      constructor <;>
        simp [Session.request, Session.connect, Session.disconnect, hm, hdev,
          hconn, hcredeq, hfirst, hdisc, hrecon, hD, hR, hmem]
  · refine ⟨?_, ?_, ?_⟩
    · cases h2 : dev.methodOutcome (s0.methodCount + 1) <;>
        simp [Session.request, Session.connect, Session.disconnect, hm, hdev,
          hconn, hcredeq, hfirst, hdisc, hrecon, hD, hR, h2, hmem]
    · intro _
      refine ⟨?_, ?_, ?_⟩
      · cases h2 : dev.methodOutcome (s0.methodCount + 1) <;>
          simp [Session.request, Session.connect, Session.disconnect, hm, hdev,
            hconn, hcredeq, hfirst, hdisc, hrecon, hD, hR, h2, hmem]
      · intro v hv
        simp [Session.request, Session.connect, Session.disconnect, hm, hdev,
          hconn, hcredeq, hfirst, hdisc, hrecon, hD, hR, hv, hmem]
      · intro e2 he2
        simp [Session.request, Session.connect, Session.disconnect, hm, hdev,
          hconn, hcredeq, hfirst, hdisc, hrecon, hD, hR, he2, hmem]
    · simp [hR]

/-- Claim C2 (witness): the connected example session whose device
method first raises a retryable, disconnecting CommandError and then
succeeds: the request disconnects once, calls the device method twice
and returns the second call's result. -/
theorem claim_C2_witness :
    (Session.request c2session "command" 5).1.methodCount =
      c2session.methodCount + 2 ∧
    (Session.request c2session "command" 5).2 = Except.ok "output" ∧
    ((Session.request c2session "command" 5).1.disconnectCount =
      c2session.disconnectCount + 1 ↔ c2err.disconnectOnError = true) := by
  have h := claim_C2_request_error_retry c2session c2dev "command" 5 c2err
    rfl (by decide) rfl (by simp [c2session]) rfl rfl rfl
  exact ⟨(h.2.1 rfl).1, (h.2.1 rfl).2.1 "output" rfl, h.1⟩

/-- Claim C5 (counterexample): in `DeviceTransport.command`, a TIMEOUT
during the pre-command flush raises a CommandError whose `retry` flag
is false (the claim says it is retryable), and a TIMEOUT right after
the command is sent, while waiting for the echo, raises a CommandError
whose `retry` flag is true (the claim says every TIMEOUT after the
command is sent is non-retryable). -/
theorem claim_C5_counterexample :
    (∃ e, transportCommand "p" false [ExpectOutcome.timeout ""] =
        some (Except.error e) ∧ e.name = ErrName.commandError ∧
        e.retry = false) ∧
    (∃ e, transportCommand "p" false
        [ExpectOutcome.pattern "ok", ExpectOutcome.timeout ""] =
        some (Except.error e) ∧ e.name = ErrName.commandError ∧
        e.retry = true) := by
  exact ⟨⟨_, rfl, rfl, by decide⟩, ⟨_, rfl, rfl, rfl⟩⟩

/-- Claim C5 (amended): every EOF observed by `DeviceTransport.command`
— before the command is sent, while waiting for the echo, or during
the response loop — raises a CommandError with `retry = true`; a
TIMEOUT while flushing for the prompt before the command is sent, or
while waiting for the rest of the response, raises a CommandError with
`retry = false`; a TIMEOUT while waiting for the command echo raises a
CommandError with `retry = true`. -/
theorem claim_C5_error_classification (prompt : String) (pager : Bool)
    (d d1 : String) (rest : List ExpectOutcome) (buf : List String) :
    (∃ e, transportCommand prompt pager (ExpectOutcome.eof d :: rest) =
        some (Except.error e) ∧ e.name = ErrName.commandError ∧ e.retry = true) ∧
    (∃ e, transportCommand prompt pager
        (ExpectOutcome.pattern d1 :: ExpectOutcome.eof d :: rest) =
        some (Except.error e) ∧ e.name = ErrName.commandError ∧ e.retry = true) ∧
    (∃ e, commandLoop prompt pager buf (ExpectOutcome.eof d :: rest) =
        some (Except.error e) ∧ e.name = ErrName.commandError ∧ e.retry = true) ∧
    (∃ e, transportCommand prompt pager (ExpectOutcome.timeout d :: rest) =
        some (Except.error e) ∧ e.name = ErrName.commandError ∧ e.retry = false) ∧
    (∃ e, transportCommand prompt pager
        (ExpectOutcome.pattern d1 :: ExpectOutcome.timeout d :: rest) =
        some (Except.error e) ∧ e.name = ErrName.commandError ∧ e.retry = true) ∧
    (∃ e, commandLoop prompt pager buf (ExpectOutcome.timeout d :: rest) =
        some (Except.error e) ∧ e.name = ErrName.commandError ∧ e.retry = false) := by
  refine ⟨⟨_, rfl, rfl, rfl⟩, ⟨_, rfl, rfl, rfl⟩, ⟨_, rfl, rfl, rfl⟩,
         ⟨_, rfl, rfl, ?_⟩, ⟨_, rfl, rfl, rfl⟩, ⟨_, rfl, rfl, ?_⟩⟩ <;>
    simp [mkApiErr]

/-- Claim C6: in `_read_router_db` a line whose device type is not in
the vendor map is logged as invalid, but — contrary to the log message
"Device skipped." and the claim — the device is still resolved and
stored in the provider's device map.  Evaluation at the failing input:
the unknown-type device `foo.example:fakevendor:up` ends up in the
map, while the comment line is skipped. -/
theorem claim_C6_unknown_vendor_not_skipped :
    vendorMapKeys.contains "fakevendor" = false ∧
    readRouterDb c6dns false c6lines =
      Except.ok
        ([("foo.example",
           { deviceName := "foo.example", addresses := "10.0.0.1",
             deviceType := "fakevendor" })],
         ["fakevendor"]) := by
  exact ⟨by decide, rfl⟩

/-- Claim C7: the error table maps NoSuchVendorError to JSON-RPC code
7, but a session-creation request whose resolved device has an
unsupported vendor does not fail with NoSuchVendorError: `new_device`
raises a bare KeyError, `get_session` swallows it into `None`, and
`Controller.request` raises NoSessionCreatedError (code 8) instead. -/
theorem claim_C7_unknown_vendor_yields_no_session_error :
    errorCode ErrName.noSuchVendorError = some 7 ∧
    vendorMapKeys.contains "fakevendor" = false ∧
    controllerResolveSession c7infoOf "example.foo" =
      Except.error (PyExc.apiError (mkApiErr ErrName.noSessionCreatedError
        "No session available for request arguments")) ∧
    ¬ (mkApiErr ErrName.noSessionCreatedError
        "No session available for request arguments").name =
      ErrName.noSuchVendorError := by
  exact ⟨rfl, by decide, rfl, by decide⟩

/-- Claim C8 (counterexample): two credentials that differ in
`auto_enable` and in `connect_method` still compare equal under
`Credential.__eq__`, so equality is not structural over all fields. -/
theorem claim_C8_counterexample :
    Credential.pyEq c8credA c8credB = true ∧
    ¬ c8credA.autoEnable = c8credB.autoEnable ∧
    ¬ c8credA.connectMethod = c8credB.connectMethod := by
  exact ⟨by decide, by decide, by decide⟩

/-- Claim C8 (amended): `Credential.__eq__` is structural over exactly
the six compared fields — anchored regexp string, username, password,
enable password, SSH private key data and SSH private key filename —
and ignores `auto_enable` and `connect_method`. -/
theorem claim_C8_eq_structural_on_compared_fields (a b : Credential) :
    Credential.pyEq a b = true ↔
      (a.regexpString = b.regexpString ∧ a.username = b.username ∧
       a.password = b.password ∧ a.enablePassword = b.enablePassword ∧
       a.sshPrivateKey = b.sshPrivateKey ∧
       a.sshPrivateKeyFilename = b.sshPrivateKeyFilename) := by
  simp [Credential.pyEq, and_assoc]

/-- Claim C9 (counterexample): a reachable lifecycle state — timer
armed by `start`, RPC result recorded, `finish` not yet run — has a
non-null result but `completed` is false, refuting the claimed
equivalence. -/
theorem claim_C9_counterexample :
    CRequest.ReachableFrom c9req0 c9req2 ∧
    ¬ c9req2.result = none ∧
    c9req2.completedB = false := by
  refine ⟨?_, by decide, by decide⟩
  exact Relation.ReflTransGen.tail
    (Relation.ReflTransGen.single (CRequest.Step.start c9req0))
    (CRequest.Step.recordResult c9req0.start "b64result")

/-- Claim C9 (amended): in every reachable lifecycle state in which
either no timeout timer is armed or the timer is no longer pending
(cancelled by `finish` or already fired), `completed` is true exactly
when the result or the error field is non-null.  With an armed,
still-pending timer, `completed` additionally waits for the timer. -/
theorem claim_C9_completed_iff_result_or_error (r0 r : CRequest)
    (_hreach : CRequest.ReachableFrom r0 r)
    (htimer : r.timerArmed = false ∨ r.timerPending = false) :
    r.completedB = true ↔ (¬ r.result = none ∨ ¬ r.error = none) := by
  cases hr : r.result <;> cases he : r.error <;>
    rcases htimer with h | h <;>
      simp [CRequest.completedB, h, hr, he]

/-- Claim C9 (witness). -/
theorem claim_C9_witness :
    (c9req2.finish).completedB = true ↔
      (¬ (c9req2.finish).result = none ∨ ¬ (c9req2.finish).error = none) :=
  claim_C9_completed_iff_result_or_error c9req0 c9req2.finish
    (Relation.ReflTransGen.tail
      (Relation.ReflTransGen.tail
        (Relation.ReflTransGen.single (CRequest.Step.start c9req0))
        (CRequest.Step.recordResult c9req0.start "b64result"))
      (CRequest.Step.finish c9req2))
    (Or.inr (by decide))

/-- Claim C10: on a session whose device is null, `connect` and
`disconnect` return without raising and leave the whole session state
unchanged; in particular `connect` does not raise
NoMatchingCredentialError even when no credential is set. -/
theorem claim_C10_deviceless_connect_disconnect_noop (s : SessionState)
    (clock : Nat) (hdev : s.device = none) :
    Session.connect s clock = (s, none) ∧
    Session.disconnect s clock = (s, none) := by
  constructor <;> simp [Session.connect, Session.disconnect, hdev]

/-- Claim C10 (witness): the device-less, credential-less session. -/
theorem claim_C10_witness :
    Session.connect c10state 7 = (c10state, none) ∧
    Session.disconnect c10state 7 = (c10state, none) :=
  claim_C10_deviceless_connect_disconnect_noop c10state 7 rfl

end Notch
